import Mathlib

/-!
# Verification of the local Core Web Vitals measurement engine

Shallow embedding of `scripts/pagespeed-local.js`: the in-page signal
collector, the metric derivation that runs at snapshot time inside
`LocalCWVMeasurement.measure`, the LCP stabilization polling loop, and the
`indicator` grading function.  Numeric values are modelled as rationals;
JavaScript's falsy coercion of `0`/`null`/`undefined` is modelled explicitly
by `truthy` on `Option ℚ`.
-/

namespace PagespeedLocal

/-- JavaScript `Math.round`: round half towards positive infinity. -/
def jsRound (x : ℚ) : ℤ := ⌊x + 1/2⌋

/-- JavaScript truthiness filter for a nullable number: `0` and `null`
collapse to `null` (used to model `v || fallback` and `v ? a : b`). -/
def truthy (o : Option ℚ) : Option ℚ :=
  o.bind fun v => if v = 0 then none else some v

/-- A stored long-task record, as pushed by the long-task observer
(`startTime`, `duration`, and the precomputed `blockingTime`). -/
structure LongTask where
  startTime : ℚ
  duration : ℚ
  blockingTime : ℚ
deriving DecidableEq, Repr

/-- The long-task observer callback (lines 133–143): a PerformanceObserver
entry is stored only when `entry.duration > 50`, with
`blockingTime = duration - 50`. -/
def observeTask (startTime duration : ℚ) : Option LongTask :=
  if duration > 50 then some ⟨startTime, duration, duration - 50⟩ else none

/-- A paint timeline entry (`performance.getEntriesByType('paint')`). -/
structure PaintEntry where
  name : String
  startTime : ℚ
deriving DecidableEq, Repr

/-- The serialized state read in-page at snapshot time: the collector's
store (`window.__performanceMetrics`) together with the performance
timeline queries made at lines 277–279. -/
structure Snapshot where
  /-- `perf.webVitals?.LCP?.value` (helper-reported LCP, ms). -/
  webVitalsLCP : Option ℚ
  /-- `perf.webVitals?.FCP?.value` (helper-reported FCP, ms). -/
  webVitalsFCP : Option ℚ
  /-- `perf.webVitals?.CLS?.value`. -/
  webVitalsCLS : Option ℚ
  /-- `perf.webVitals?.TTFB?.value` (ms). -/
  webVitalsTTFB : Option ℚ
  /-- `perf.longTasks`, in arrival order. -/
  longTasks : List LongTask
  /-- `performance.getEntriesByType('paint')`. -/
  paintEntries : List PaintEntry
  /-- start times of `performance.getEntriesByType('largest-contentful-paint')`,
  in arrival order. -/
  lcpEntries : List ℚ
  /-- `nav.loadEventEnd` when a navigation entry exists, else `none`. -/
  navLoadEventEnd : Option ℚ
deriving DecidableEq, Repr

/-- Line 282–283: `perf.webVitals?.FCP?.value ||
paint.find(e => e.name === 'first-contentful-paint')?.startTime || null`. -/
def fcpOf (p : Snapshot) : Option ℚ :=
  (truthy p.webVitalsFCP).orElse fun _ =>
    truthy ((p.paintEntries.find? fun e => e.name = "first-contentful-paint").map
      PaintEntry.startTime)

/-- Lines 286–292: helper value (falsy → null), then if raw LCP entries
exist, take the last one's start time and keep it when the helper value is
absent or the raw value is larger. -/
def finalLCP (p : Snapshot) : Option ℚ :=
  let base := truthy p.webVitalsLCP
  match p.lcpEntries.getLast? with
  | none => base
  | some apiLCP =>
    match base with
    | none => some apiLCP
    | some v => if apiLCP > v then some apiLCP else some v

/-- Line 297: `const tti = nav ? nav.loadEventEnd : finalLCP || 10000`. -/
def tbtBoundary (p : Snapshot) : ℚ :=
  match p.navLoadEventEnd with
  | some le => le
  | none => (truthy (finalLCP p)).getD 10000

/-- Lines 299–303: accumulate `task.blockingTime` over tasks with
`fcp ≤ startTime < boundary`. -/
def blockingSum (fcp boundary : ℚ) (tasks : List LongTask) : ℚ :=
  tasks.foldl
    (fun acc task =>
      if fcp ≤ task.startTime ∧ task.startTime < boundary then acc + task.blockingTime
      else acc) 0

/-- Lines 294–304: the TBT accumulator; starts at 0 and is only added to
when the store has long tasks and FCP is truthy. -/
def totalBlockingTime (p : Snapshot) : ℚ :=
  match fcpOf p with
  | none => 0
  | some fcp =>
      if p.longTasks.isEmpty then 0
      else blockingSum fcp (tbtBoundary p) p.longTasks

/-- Lines 326–343: the TTI walk over the FCP-filtered, start-sorted task
list with `lastTaskEnd` threaded through; returns `lastTaskEnd` at the
first ≥ `quiet` gap, else the end of the final task. -/
def ttiWalk (quiet : ℚ) : ℚ → List LongTask → ℚ
  | lastTaskEnd, [] => lastTaskEnd
  | lastTaskEnd, task :: rest =>
    if task.startTime - lastTaskEnd ≥ quiet then lastTaskEnd
    else ttiWalk quiet (task.startTime + task.duration) rest

/-- Stable insertion into a start-sorted list: the new task goes before
the first element whose start is not smaller, so elements with equal start
keep their original relative order, matching the stable
`Array.prototype.sort`. -/
def insertTask (t : LongTask) : List LongTask → List LongTask
  | [] => [t]
  | u :: us => if u.startTime < t.startTime then u :: insertTask t us else t :: u :: us

/-- Stable sort by start time ascending (the comparator
`(a, b) => a.startTime - b.startTime`). -/
def sortTasks : List LongTask → List LongTask
  | [] => []
  | t :: ts => insertTask t (sortTasks ts)

/-- Lines 313–316: `perf.longTasks.filter(t => t.startTime >= fcp)
.sort((a, b) => a.startTime - b.startTime)`. -/
def sortedTasks (fcp : ℚ) (tasks : List LongTask) : List LongTask :=
  sortTasks (tasks.filter fun t => t.startTime ≥ fcp)

/-- Lines 308–345: TTI derivation; null when FCP is falsy, FCP itself when
no long task starts at or after FCP, else the walk's result. -/
def ttiOf (p : Snapshot) : Option ℚ :=
  match fcpOf p with
  | none => none
  | some fcp =>
    let sorted := sortedTasks fcp p.longTasks
    if sorted.isEmpty then some fcp
    else some (ttiWalk 5000 fcp sorted)

/-- Lines 350–362: Speed Index; `fcp * 1.8`, overridden by the
interpolation `fcp + (lcp - fcp) * 0.6` when the final LCP is truthy and
strictly greater than FCP. -/
def speedIndex (p : Snapshot) : Option ℚ :=
  match fcpOf p with
  | none => none
  | some fcp =>
    match truthy (finalLCP p) with
    | some lcp =>
        if lcp > fcp then some (fcp + (lcp - fcp) * (6/10))
        else some (fcp * (18/10))
    | none => some (fcp * (18/10))

/-- The metric bundle returned at lines 364–375.  All numeric fields are
nullable in JavaScript; `cls` defaults to 0 rather than null. -/
structure MetricBundle where
  lcp : Option ℚ
  fcp : Option ℚ
  cls : ℚ
  ttfb : Option ℚ
  tbt : Option ℚ
  tti : Option ℚ
  si : Option ℚ
deriving DecidableEq, Repr

/-- `Math.round(x) / 1000`. -/
def roundDiv1000 (x : ℚ) : ℚ := (jsRound x : ℚ) / 1000

/-- Lines 364–375: the bundle construction.  Note `tbt` is
`Math.round(totalBlockingTime)` with no division by 1000 and no null
guard, unlike `tti` and `si`. -/
def derive (p : Snapshot) : MetricBundle where
  lcp := (truthy (finalLCP p)).map roundDiv1000
  fcp := (truthy (fcpOf p)).map roundDiv1000
  cls := (truthy p.webVitalsCLS).getD 0
  ttfb := (truthy p.webVitalsTTFB).map roundDiv1000
  tbt := some ((jsRound (totalBlockingTime p) : ℤ) : ℚ)
  tti := (truthy (ttiOf p)).map roundDiv1000
  si := (truthy (speedIndex p)).map roundDiv1000

/-! ## Grading (`THRESHOLDS` and `indicator`, lines 30–40 and 390–401) -/

/-- The seven metric keys graded by `indicator`. -/
inductive Metric
  | lcp | cls | fcp | ttfb | tbt | si | tti
deriving DecidableEq, Repr

/-- A `{good, poor}` threshold pair. -/
structure Threshold where
  good : ℚ
  poor : ℚ
deriving DecidableEq, Repr

/-- The `THRESHOLDS` table (lines 30–40). -/
def THRESHOLDS : Metric → Threshold
  | .lcp  => ⟨5/2, 4⟩
  | .cls  => ⟨1/10, 1/4⟩
  | .fcp  => ⟨9/5, 3⟩
  | .ttfb => ⟨4/5, 9/5⟩
  | .tbt  => ⟨200, 600⟩
  | .si   => ⟨3400, 5800⟩
  | .tti  => ⟨3800, 7300⟩

/-- Line 396: `['tbt', 'si', 'tti'].includes(metric)`. -/
def isLabMetric : Metric → Bool
  | .tbt | .si | .tti => true
  | _ => false

/-- The three grade bands plus the null dash. -/
inductive Grade
  | green | yellow | red | dash
deriving DecidableEq, Repr

/-- Line 396: the value actually compared against the thresholds. -/
def compareValue (metric : Metric) (v : ℚ) : ℚ :=
  if isLabMetric metric then v * 1000 else v

/-- Lines 390–401: `indicator(metric, value)`. -/
def indicator (metric : Metric) (value : Option ℚ) : Grade :=
  match value with
  | none => .dash
  | some v =>
    let thresh := THRESHOLDS metric
    let cv := compareValue metric v
    if cv ≤ thresh.good then .green
    else if cv ≤ thresh.poor then .yellow
    else .red

/-! ## The LCP stabilization loop (lines 231–258) -/

/-- `const maxWaitTime = 15000`. -/
def maxWaitTime : ℕ := 15000

/-- `const checkInterval = 3000`. -/
def checkInterval : ℕ := 3000

/-- Number of loop iterations: `elapsed = 0, 3000, …, 12000`. -/
def numPolls : ℕ := maxWaitTime / checkInterval

/-- One run of the `for (let elapsed = 0; …)` loop body, recursing on the
remaining iteration count.  `readings i` is the value of
`perf.webVitals?.LCP?.value || null` observed at poll `i`.  Returns the
number of polls performed and whether the loop broke early. -/
def stabilizeGo (readings : ℕ → Option ℚ) :
    ℕ → ℕ → Option ℚ → ℕ → ℕ × Bool
  | 0, i, _, _ => (i, false)
  | fuel + 1, i, lastLCP, stableLCPCount =>
    let currentLCP := readings i
    if currentLCP = lastLCP ∧ currentLCP ≠ none then
      if stableLCPCount + 1 ≥ 2 then (i + 1, true)
      else stabilizeGo readings fuel (i + 1) lastLCP (stableLCPCount + 1)
    else stabilizeGo readings fuel (i + 1) currentLCP 0

/-- The stabilization loop: `lastLCP = null`, `stableLCPCount = 0`,
bounded by `maxWaitTime / checkInterval` polls; never throws — on ceiling
exhaustion it returns with `false` and the session proceeds. -/
def stabilize (readings : ℕ → Option ℚ) : ℕ × Bool :=
  stabilizeGo readings numPolls 0 none 0

/-! ## Spec-side model of the TTI walk

The spec describes TTI over the sorted FCP-filtered list as "the first
`lastTaskEnd` whose gap to the next task's start is ≥ 5000ms, else the end
of the final task".  The following definitions follow that wording; the
refinement theorem for the TTI claim compares them with `ttiWalk`. -/

/-- Spec wording: the first `lastTaskEnd` whose gap to the next task's
start is at least `quiet`, if any. -/
def firstQuietStart (quiet : ℚ) : ℚ → List LongTask → Option ℚ
  | _, [] => none
  | lastEnd, t :: rest =>
    if t.startTime - lastEnd ≥ quiet then some lastEnd
    else firstQuietStart quiet (t.startTime + t.duration) rest

/-- Spec wording: the end (`start + duration`) of the final task, or the
initial baseline when the list is empty. -/
def lastEndOf : ℚ → List LongTask → ℚ
  | lastEnd, [] => lastEnd
  | _, t :: rest => lastEndOf (t.startTime + t.duration) rest

/-- Spec wording for TTI over the sorted FCP-filtered list: first quiet
gap's `lastTaskEnd` when one exists, else the end of the final task (which
is FCP itself for an empty list). -/
def specTTI (fcp : ℚ) (sorted : List LongTask) : ℚ :=
  (firstQuietStart 5000 fcp sorted).getD (lastEndOf fcp sorted)

/-! ## Concrete snapshots used in witnesses and counterexamples -/

/-- A session with FCP 1000ms, load-event-end 9000ms and one long task of
duration 150ms (blocking time 100ms) starting at 2000ms. -/
def tbtBugSnap : Snapshot where
  webVitalsLCP := some 3000
  webVitalsFCP := some 1000
  webVitalsCLS := none
  webVitalsTTFB := none
  longTasks := [⟨2000, 150, 100⟩]
  paintEntries := []
  lcpEntries := []
  navLoadEventEnd := some 9000

/-- A session in which FCP was never observed (no helper FCP, no paint
entry) but long tasks and an LCP exist. -/
def noFcpSnap : Snapshot where
  webVitalsLCP := some 3000
  webVitalsFCP := none
  webVitalsCLS := none
  webVitalsTTFB := none
  longTasks := [⟨2000, 80, 30⟩]
  paintEntries := []
  lcpEntries := []
  navLoadEventEnd := none

/-- FCP 1000ms, load-event-end 9000ms, two in-window tasks of durations
80ms and 120ms (blocking 30 and 70). -/
def tbtAddSnap : Snapshot where
  webVitalsLCP := none
  webVitalsFCP := some 1000
  webVitalsCLS := none
  webVitalsTTFB := none
  longTasks := [⟨2000, 80, 30⟩, ⟨3000, 120, 70⟩]
  paintEntries := []
  lcpEntries := []
  navLoadEventEnd := some 9000

/-- Helper LCP 2000ms and raw LCP candidates whose last entry is 2500ms. -/
def lcpPrecSnap : Snapshot where
  webVitalsLCP := some 2000
  webVitalsFCP := none
  webVitalsCLS := none
  webVitalsTTFB := none
  longTasks := []
  paintEntries := []
  lcpEntries := [1800, 2500]
  navLoadEventEnd := none

/-- FCP 1000ms and LCP 3000ms (Speed Index interpolation case). -/
def siInterpSnap : Snapshot where
  webVitalsLCP := some 3000
  webVitalsFCP := some 1000
  webVitalsCLS := none
  webVitalsTTFB := none
  longTasks := []
  paintEntries := []
  lcpEntries := []
  navLoadEventEnd := none

/-- FCP 1000ms with no LCP at all (Speed Index fallback case). -/
def siFallbackSnap : Snapshot where
  webVitalsLCP := none
  webVitalsFCP := some 1000
  webVitalsCLS := none
  webVitalsTTFB := none
  longTasks := []
  paintEntries := []
  lcpEntries := []
  navLoadEventEnd := none

/-- FCP 500ms with long tasks at 1000ms (60ms) and 7000ms (60ms): the gap
between 1060 and 7000 is a quiet window, so TTI is 1060. -/
def ttiSnap : Snapshot where
  webVitalsLCP := none
  webVitalsFCP := some 500
  webVitalsCLS := none
  webVitalsTTFB := none
  longTasks := [⟨7000, 60, 10⟩, ⟨1000, 60, 10⟩]
  paintEntries := []
  lcpEntries := []
  navLoadEventEnd := none

/-! ## Basic lemmas about the embedding -/

theorem truthy_some_zero : truthy (some 0) = none := rfl

/-- `Math.round` of an integer is that integer. -/
theorem jsRound_intCast (n : ℤ) : jsRound (n : ℚ) = n := by
  rw [jsRound, add_comm, Int.floor_add_int]
  norm_num

theorem truthy_some_of_ne {v : ℚ} (h : v ≠ 0) : truthy (some v) = some v := by
  simp [truthy, h]

theorem truthy_ne_zero {o : Option ℚ} {f : ℚ} (h : truthy o = some f) : f ≠ 0 := by
  rcases o with _ | v
  · simp [truthy] at h
  · by_cases hv : v = 0
    · simp [truthy, hv] at h
    · simp [truthy, hv] at h
      exact h ▸ hv

theorem fcpOf_ne_zero {p : Snapshot} {f : ℚ} (h : fcpOf p = some f) : f ≠ 0 := by
  unfold fcpOf at h
  rcases h1 : truthy p.webVitalsFCP with _ | v
  · rw [h1] at h
    simp only [Option.orElse] at h
    exact truthy_ne_zero h
  · rw [h1] at h
    simp only [Option.orElse, Option.some.injEq] at h
    exact h ▸ truthy_ne_zero h1

/-- The walk from the source equals the spec-worded first-gap/last-end
description. -/
theorem ttiWalk_eq_specTTI (quiet : ℚ) (e : ℚ) (ts : List LongTask) :
    ttiWalk quiet e ts = (firstQuietStart quiet e ts).getD (lastEndOf e ts) := by
  induction ts generalizing e with
  | nil => rfl
  | cons t rest ih =>
      by_cases h : t.startTime - e ≥ quiet <;>
        simp [ttiWalk, firstQuietStart, lastEndOf, h, ih]

/-- `blockingSum` is the sum of `blockingTime` over the in-window filter. -/
theorem blockingSum_eq_sum (fcp b : ℚ) (ts : List LongTask) :
    blockingSum fcp b ts =
      ((ts.filter fun t => decide (fcp ≤ t.startTime ∧ t.startTime < b)).map
        LongTask.blockingTime).sum := by
  suffices h : ∀ acc : ℚ, ts.foldl
      (fun acc task =>
        if fcp ≤ task.startTime ∧ task.startTime < b then acc + task.blockingTime
        else acc) acc =
      acc + ((ts.filter fun t => decide (fcp ≤ t.startTime ∧ t.startTime < b)).map
        LongTask.blockingTime).sum by
    simpa [blockingSum] using h 0
  induction ts with
  | nil => intro acc; simp
  | cons t rest ih =>
      intro acc
      by_cases h : fcp ≤ t.startTime ∧ t.startTime < b <;>
        simp [List.filter, h, ih, add_assoc]

/-- A task accepted by the long-task observer has nonnegative blocking
time, equal to `duration − 50`, and duration above the 50ms threshold. -/
theorem observeTask_spec {s d : ℚ} {t : LongTask} (h : observeTask s d = some t) :
    0 ≤ t.blockingTime ∧ t.blockingTime = t.duration - 50 ∧ 50 < t.duration := by
  unfold observeTask at h
  by_cases hd : d > 50
  · rw [if_pos hd] at h
    cases h
    refine ⟨show (0:ℚ) ≤ d - 50 by linarith, rfl, hd⟩
  · rw [if_neg hd] at h
    cases h

/-- The blocking-time accumulator is nonnegative whenever every stored
task has nonnegative blocking time. -/
theorem blockingSum_nonneg {fcp b : ℚ} {ts : List LongTask}
    (h : ∀ t ∈ ts, 0 ≤ t.blockingTime) : 0 ≤ blockingSum fcp b ts := by
  rw [blockingSum_eq_sum]
  apply List.sum_nonneg
  intro x hx
  obtain ⟨t, ht, rfl⟩ := List.mem_map.mp hx
  exact h t (List.mem_filter.mp ht).1

/-- One unfolding step of the stabilization loop. -/
theorem stabilizeGo_succ (r : ℕ → Option ℚ) (fuel i : ℕ) (last : Option ℚ)
    (cnt : ℕ) :
    stabilizeGo r (fuel + 1) i last cnt =
      if r i = last ∧ r i ≠ none then
        if cnt + 1 ≥ 2 then (i + 1, true)
        else stabilizeGo r fuel (i + 1) last (cnt + 1)
      else stabilizeGo r fuel (i + 1) (r i) 0 := rfl

/-- The derivation reads the helper signals only through `truthy`, and the
other store fields verbatim. -/
theorem derive_congr {p q : Snapshot}
    (hL : truthy p.webVitalsLCP = truthy q.webVitalsLCP)
    (hF : truthy p.webVitalsFCP = truthy q.webVitalsFCP)
    (hC : p.webVitalsCLS = q.webVitalsCLS)
    (hT : truthy p.webVitalsTTFB = truthy q.webVitalsTTFB)
    (htasks : p.longTasks = q.longTasks)
    (hpaint : p.paintEntries = q.paintEntries)
    (hlcpE : p.lcpEntries = q.lcpEntries)
    (hnav : p.navLoadEventEnd = q.navLoadEventEnd) :
    derive p = derive q := by
  have hfcp : fcpOf p = fcpOf q := by simp only [fcpOf, hF, hpaint]
  have hlcp : finalLCP p = finalLCP q := by simp only [finalLCP, hL, hlcpE]
  have hbd : tbtBoundary p = tbtBoundary q := by
    simp only [tbtBoundary, hlcp, hnav]
  have htbt : totalBlockingTime p = totalBlockingTime q := by
    simp only [totalBlockingTime, hfcp, htasks, hbd]
  have htti : ttiOf p = ttiOf q := by simp only [ttiOf, hfcp, htasks]
  have hsi : speedIndex p = speedIndex q := by
    simp only [speedIndex, hfcp, hlcp]
  simp only [derive, hfcp, hlcp, hC, hT, htbt, htti, hsi]

/-! ## Claim theorems -/

/-- C1: the three lab metrics are claimed to be stored in seconds and graded
after conversion back to milliseconds, so a 100ms TBT should grade good
(100 ≤ 200).  The code stores `tbt` as `Math.round(totalBlockingTime)` in
milliseconds (no division by 1000), and `indicator` still multiplies by
1000, so the bundle's 100ms TBT is compared as 100000 and grades poor. -/
theorem tbt_stored_in_ms_and_graded_poor :
    totalBlockingTime tbtBugSnap = 100 ∧
    (derive tbtBugSnap).tbt = some 100 ∧
    indicator .tbt (derive tbtBugSnap).tbt = .red ∧
    indicator .tbt (some (roundDiv1000 (totalBlockingTime tbtBugSnap))) = .green := by
  have htbt : totalBlockingTime tbtBugSnap = 100 := by
    norm_num [totalBlockingTime, tbtBugSnap, fcpOf, truthy, Option.orElse,
      blockingSum, tbtBoundary, finalLCP]
  have hround : jsRound (totalBlockingTime tbtBugSnap) = 100 := by
    rw [htbt]
    exact_mod_cast jsRound_intCast 100
  refine ⟨htbt, ?_, ?_, ?_⟩
  · simp [derive, hround]
  · simp only [derive, hround]
    norm_num [indicator, compareValue, isLabMetric, THRESHOLDS]
  · rw [roundDiv1000, hround]
    norm_num [indicator, compareValue, isLabMetric, THRESHOLDS]

/-- C2 counterexample: in a snapshot whose FCP is unobserved, the bundle's
`tbt` field is `some 0`, not `none` — the accumulator stays 0 and the
output line has no null guard. -/
theorem tbt_zero_not_null_cex :
    fcpOf noFcpSnap = none ∧
    (derive noFcpSnap).tbt ≠ none ∧
    (derive noFcpSnap).tbt = some 0 := by
  have hfcp : fcpOf noFcpSnap = none := by
    norm_num [fcpOf, noFcpSnap, truthy, Option.orElse]
  have h0 : (derive noFcpSnap).tbt = some 0 := by
    have hz : jsRound 0 = 0 := by exact_mod_cast jsRound_intCast 0
    simp [derive, totalBlockingTime, hfcp, hz]
  exact ⟨hfcp, by simp [h0], h0⟩

/-- C2 amended: for every snapshot in which FCP is unobserved, the derived
bundle's total-blocking-time field is `some 0` (the zero accumulator,
rounded), not null. -/
theorem tbt_zero_without_fcp (p : Snapshot) (h : fcpOf p = none) :
    (derive p).tbt = some 0 := by
  have hz : jsRound 0 = 0 := by exact_mod_cast jsRound_intCast 0
  simp [derive, totalBlockingTime, h, hz]

/-- Witness for `tbt_zero_without_fcp` at `noFcpSnap`. -/
theorem tbt_zero_without_fcp_witness :
    fcpOf noFcpSnap = none ∧ (derive noFcpSnap).tbt = some 0 := by
  have hfcp : fcpOf noFcpSnap = none := by
    norm_num [fcpOf, noFcpSnap, truthy, Option.orElse]
  exact ⟨hfcp, tbt_zero_without_fcp noFcpSnap hfcp⟩

/-- C8: for every metric and non-null value, with `cv` the compared value
(the stored value, times 1000 for the three lab metrics), the grade is
good iff `cv ≤ good`, needs-improvement iff `good < cv ≤ poor`, and poor
iff `cv > poor`; in particular LCP 2.5 grades good, 2.500001 and 4.0 grade
needs-improvement, and 4.000001 grades poor. -/
theorem indicator_band_characterization (m : Metric) (v : ℚ) :
    (indicator m (some v) = .green ↔ compareValue m v ≤ (THRESHOLDS m).good) ∧
    (indicator m (some v) = .yellow ↔
      (THRESHOLDS m).good < compareValue m v ∧
        compareValue m v ≤ (THRESHOLDS m).poor) ∧
    (indicator m (some v) = .red ↔ (THRESHOLDS m).poor < compareValue m v) ∧
    indicator .lcp (some (5/2)) = .green ∧
    indicator .lcp (some (2500001/1000000)) = .yellow ∧
    indicator .lcp (some 4) = .yellow ∧
    indicator .lcp (some (4000001/1000000)) = .red := by
  have hgp : (THRESHOLDS m).good ≤ (THRESHOLDS m).poor := by
    cases m <;> norm_num [THRESHOLDS]
  refine ⟨?_, ?_, ?_, ?_, ?_, ?_, ?_⟩
  · unfold indicator
    by_cases h1 : compareValue m v ≤ (THRESHOLDS m).good
    · simp [h1]
    · by_cases h2 : compareValue m v ≤ (THRESHOLDS m).poor <;> simp [h1, h2]
  · unfold indicator
    by_cases h1 : compareValue m v ≤ (THRESHOLDS m).good
    · have hng : ¬ (THRESHOLDS m).good < compareValue m v := not_lt.mpr h1
      simp [h1, hng]
    · have h1' := not_le.mp h1
      by_cases h2 : compareValue m v ≤ (THRESHOLDS m).poor <;> simp [h1, h1', h2]
  · unfold indicator
    by_cases h2 : compareValue m v ≤ (THRESHOLDS m).poor
    · have hnp : ¬ (THRESHOLDS m).poor < compareValue m v := not_lt.mpr h2
      by_cases h1 : compareValue m v ≤ (THRESHOLDS m).good <;> simp [h1, h2, hnp]
    · have h2' := not_le.mp h2
      have h1 : ¬ compareValue m v ≤ (THRESHOLDS m).good := fun hc => h2 (le_trans hc hgp)
      simp [h1, h2, h2']
  · norm_num [indicator, compareValue, isLabMetric, THRESHOLDS]
  · norm_num [indicator, compareValue, isLabMetric, THRESHOLDS]
  · norm_num [indicator, compareValue, isLabMetric, THRESHOLDS]
  · norm_num [indicator, compareValue, isLabMetric, THRESHOLDS]

/-- C3: for every snapshot, when FCP is unobserved TTI is null; when FCP
is observed at `f`, TTI is exactly the spec's walk over the FCP-filtered
start-sorted tasks — FCP itself when no task starts at or after FCP, else
the first `lastTaskEnd` whose gap to the next task's start is ≥ 5000ms,
else the end of the final task. -/
theorem tti_matches_spec_walk (p : Snapshot) :
    (fcpOf p = none → ttiOf p = none) ∧
    ∀ f, fcpOf p = some f →
      (sortedTasks f p.longTasks = [] → ttiOf p = some f) ∧
      ttiOf p = some (specTTI f (sortedTasks f p.longTasks)) := by
  constructor
  · intro h
    simp [ttiOf, h]
  · intro f hf
    constructor
    · intro hempty
      simp [ttiOf, hf, hempty]
    · simp only [ttiOf, hf]
      by_cases hempty : (sortedTasks f p.longTasks).isEmpty
      · rw [if_pos hempty]
        rw [List.isEmpty_iff] at hempty
        simp [specTTI, hempty, firstQuietStart, lastEndOf]
      · rw [if_neg hempty]
        rw [specTTI, ← ttiWalk_eq_specTTI]

/-- Witness for `tti_matches_spec_walk` at `ttiSnap` (FCP 500, tasks at
1000 and 7000): the walk stops at 1060, the end of the first task. -/
theorem tti_matches_spec_walk_witness :
    ttiOf ttiSnap = some (specTTI 500 (sortedTasks 500 ttiSnap.longTasks)) ∧
    specTTI 500 (sortedTasks 500 ttiSnap.longTasks) = 1060 := by
  have hf : fcpOf ttiSnap = some 500 := by
    norm_num [fcpOf, ttiSnap, truthy, Option.orElse]
  refine ⟨((tti_matches_spec_walk ttiSnap).2 500 hf).2, ?_⟩
  norm_num [ttiSnap, sortedTasks, sortTasks, insertTask, specTTI,
    firstQuietStart, lastEndOf]

/-- C4: for every snapshot with observed FCP `f` and a collector-shaped
store, TBT is the sum of `duration − 50` over exactly the tasks with
`f ≤ start < boundary`; the boundary is the navigation entry's
load-event-end when present, else the truthy derived LCP, else 10000; and
the 80ms/120ms example yields 30 + 70 = 100. -/
theorem tbt_window_sum (p : Snapshot) :
    (∀ f, fcpOf p = some f →
      (∀ t ∈ p.longTasks, t.blockingTime = t.duration - 50) →
      totalBlockingTime p =
        ((p.longTasks.filter fun t =>
            decide (f ≤ t.startTime ∧ t.startTime < tbtBoundary p)).map
          (fun t => t.duration - 50)).sum) ∧
    (∀ le, p.navLoadEventEnd = some le → tbtBoundary p = le) ∧
    (∀ l, p.navLoadEventEnd = none → finalLCP p = some l → l ≠ 0 →
      tbtBoundary p = l) ∧
    (p.navLoadEventEnd = none → truthy (finalLCP p) = none →
      tbtBoundary p = 10000) ∧
    totalBlockingTime tbtAddSnap = 30 + 70 := by
  refine ⟨?_, ?_, ?_, ?_, ?_⟩
  · intro f hf hblock
    simp only [totalBlockingTime, hf]
    by_cases hempty : p.longTasks.isEmpty
    · rw [if_pos hempty]
      rw [List.isEmpty_iff] at hempty
      simp [hempty]
    · rw [if_neg hempty, blockingSum_eq_sum]
      congr 1
      apply List.map_congr_left
      intro t ht
      exact hblock t (List.mem_filter.mp ht).1
  · intro le hle
    simp [tbtBoundary, hle]
  · intro l hnav hlcp hl0
    simp [tbtBoundary, hnav, hlcp, truthy_some_of_ne hl0]
  · intro hnav hlcp
    simp [tbtBoundary, hnav, hlcp]
  · norm_num [totalBlockingTime, tbtAddSnap, fcpOf, truthy, Option.orElse,
      blockingSum, tbtBoundary]

/-- Witness for `tbt_window_sum` at `tbtAddSnap`. -/
theorem tbt_window_sum_witness :
    totalBlockingTime tbtAddSnap =
      ((tbtAddSnap.longTasks.filter fun t =>
          decide (1000 ≤ t.startTime ∧ t.startTime < tbtBoundary tbtAddSnap)).map
        (fun t => t.duration - 50)).sum ∧
    tbtBoundary tbtAddSnap = 9000 := by
  have hf : fcpOf tbtAddSnap = some 1000 := by
    norm_num [fcpOf, tbtAddSnap, truthy, Option.orElse]
  refine ⟨(tbt_window_sum tbtAddSnap).1 1000 hf ?_,
    (tbt_window_sum tbtAddSnap).2.1 9000 rfl⟩
  intro t ht
  simp only [tbtAddSnap, List.mem_cons, List.not_mem_nil, or_false] at ht
  rcases ht with rfl | rfl <;> norm_num

/-- C6: Speed Index is null without FCP; with FCP `f ≥ 0` it is
`f × 1.8` when LCP is unknown or not strictly greater than `f`, and
`f + (LCP − f) × 0.6` when LCP is known and strictly greater; FCP 1000
with LCP 3000 gives 2200 and FCP 1000 with no LCP gives 1800. -/
theorem speedIndex_spec (p : Snapshot) :
    (fcpOf p = none → speedIndex p = none ∧ (derive p).si = none) ∧
    (∀ f, fcpOf p = some f → 0 ≤ f →
      (finalLCP p = none → speedIndex p = some (f * (18/10))) ∧
      (∀ l, finalLCP p = some l → l ≤ f → speedIndex p = some (f * (18/10))) ∧
      (∀ l, finalLCP p = some l → f < l →
        speedIndex p = some (f + (l - f) * (6/10)))) ∧
    speedIndex siInterpSnap = some 2200 ∧
    speedIndex siFallbackSnap = some 1800 := by
  refine ⟨?_, ?_, ?_, ?_⟩
  · intro h
    constructor
    · simp [speedIndex, h]
    · simp [derive, speedIndex, h, truthy]
  · intro f hf hf0
    refine ⟨?_, ?_, ?_⟩
    · intro hlcp
      simp [speedIndex, hf, hlcp, truthy]
    · intro l hlcp hle
      by_cases hl0 : l = 0
      · simp [speedIndex, hf, hlcp, hl0, truthy]
      · have : ¬ l > f := not_lt.mpr hle
        simp [speedIndex, hf, hlcp, truthy_some_of_ne hl0, this]
    · intro l hlcp hlt
      have hl0 : l ≠ 0 := by
        intro h0
        rw [h0] at hlt
        exact absurd hlt (not_lt.mpr hf0)
      simp [speedIndex, hf, hlcp, truthy_some_of_ne hl0, hlt]
  · norm_num [speedIndex, siInterpSnap, fcpOf, finalLCP, truthy, Option.orElse]
  · norm_num [speedIndex, siFallbackSnap, fcpOf, finalLCP, truthy, Option.orElse]

/-- Witness for `speedIndex_spec` at `siInterpSnap`. -/
theorem speedIndex_spec_witness :
    speedIndex siInterpSnap = some (1000 + (3000 - 1000) * (6/10)) := by
  have hf : fcpOf siInterpSnap = some 1000 := by
    norm_num [fcpOf, siInterpSnap, truthy, Option.orElse]
  have hl : finalLCP siInterpSnap = some 3000 := by
    norm_num [finalLCP, siInterpSnap, truthy]
  exact (((speedIndex_spec siInterpSnap).2.1 1000 hf (by norm_num)).2.2) 3000 hl
    (by norm_num)

/-- C7: with a truthy helper LCP and at least one raw candidate, the final
LCP is the max of the helper value and the last candidate's start time
(2000 vs 2500 gives 2500); with only one of the two, that one is used;
with neither, LCP is null. -/
theorem finalLCP_max_rule (p : Snapshot) :
    (∀ v c, p.webVitalsLCP = some v → v ≠ 0 → p.lcpEntries.getLast? = some c →
      finalLCP p = some (max v c)) ∧
    (∀ v, p.webVitalsLCP = some v → v ≠ 0 → p.lcpEntries = [] →
      finalLCP p = some v) ∧
    (∀ c, p.webVitalsLCP = none → p.lcpEntries.getLast? = some c →
      finalLCP p = some c) ∧
    (p.webVitalsLCP = none → p.lcpEntries = [] → finalLCP p = none) ∧
    finalLCP lcpPrecSnap = some 2500 := by
  refine ⟨?_, ?_, ?_, ?_, ?_⟩
  · intro v c hv hv0 hc
    simp only [finalLCP, hv, truthy_some_of_ne hv0, hc]
    rcases le_or_lt c v with h | h
    · rw [if_neg (not_lt.mpr h), max_eq_left h]
    · rw [if_pos h, max_eq_right h.le]
  · intro v hv hv0 hnil
    simp [finalLCP, hv, truthy_some_of_ne hv0, hnil]
  · intro c hv hc
    simp [finalLCP, hv, truthy, hc]
  · intro hv hnil
    simp [finalLCP, hv, truthy, hnil]
  · norm_num [finalLCP, lcpPrecSnap, truthy]

/-- Witness for `finalLCP_max_rule` at `lcpPrecSnap`. -/
theorem finalLCP_max_rule_witness :
    finalLCP lcpPrecSnap = some (max 2000 2500) :=
  (finalLCP_max_rule lcpPrecSnap).1 2000 2500 rfl (by norm_num) rfl

/-- C9: for a store shaped by the collector (every task admitted by
`observeTask`, hence duration > 50 and blocking time `duration − 50`), the
computed TBT is nonnegative, and a task starting before FCP or at/after
the boundary contributes exactly 0 to the accumulator wherever it sits in
the list, regardless of its duration. -/
theorem tbt_nonneg_and_window_floor (p : Snapshot)
    (hcollect : ∀ t ∈ p.longTasks, ∃ s d, observeTask s d = some t) :
    0 ≤ totalBlockingTime p ∧
    ∀ fcp b (t : LongTask) ts₁ ts₂, t.startTime < fcp ∨ b ≤ t.startTime →
      blockingSum fcp b (ts₁ ++ t :: ts₂) = blockingSum fcp b (ts₁ ++ ts₂) := by
  constructor
  · rcases hf : fcpOf p with _ | f
    · simp [totalBlockingTime, hf]
    · simp only [totalBlockingTime, hf]
      by_cases hempty : p.longTasks.isEmpty = true
      · simp [hempty]
      · simp only [hempty, if_false]
        refine blockingSum_nonneg fun t ht => ?_
        obtain ⟨s, d, hsd⟩ := hcollect t ht
        exact (observeTask_spec hsd).1
  · intro fcp b t ts₁ ts₂ hout
    have hcond : ¬ (fcp ≤ t.startTime ∧ t.startTime < b) := by
      rintro ⟨h1, h2⟩
      rcases hout with h | h
      · exact absurd h1 (not_le.mpr h)
      · exact absurd h2 (not_lt.mpr h)
    simp [blockingSum, List.foldl_append, hcond]

/-- Witness for `tbt_nonneg_and_window_floor` at `tbtAddSnap`, with an
out-of-window task of duration 1000ms contributing nothing. -/
theorem tbt_nonneg_and_window_floor_witness :
    0 ≤ totalBlockingTime tbtAddSnap ∧
    blockingSum 1000 9000 ([] ++ ⟨500, 1000, 950⟩ :: tbtAddSnap.longTasks) =
      blockingSum 1000 9000 ([] ++ tbtAddSnap.longTasks) := by
  have hcollect : ∀ t ∈ tbtAddSnap.longTasks, ∃ s d, observeTask s d = some t := by
    intro t ht
    simp only [tbtAddSnap, List.mem_cons, List.not_mem_nil, or_false] at ht
    rcases ht with rfl | rfl
    · exact ⟨2000, 80, by norm_num [observeTask]⟩
    · exact ⟨3000, 120, by norm_num [observeTask]⟩
  exact ⟨(tbt_nonneg_and_window_floor tbtAddSnap hcollect).1,
    (tbt_nonneg_and_window_floor tbtAddSnap hcollect).2 1000 9000 ⟨500, 1000, 950⟩
      [] tbtAddSnap.longTasks (Or.inl (by norm_num))⟩

/-- C10: a helper signal observed as exactly 0 is indistinguishable from a
missing signal: replacing a zero helper FCP, TTFB or LCP by `none` leaves
the whole derived bundle unchanged; concretely, a zero helper FCP falls
through to the paint-entry fallback, a zero helper TTFB yields a null
`ttfb` field, and a zero helper LCP leaves the last raw candidate (or
null). -/
theorem zero_signal_indistinguishable (p : Snapshot) :
    derive { p with webVitalsFCP := some 0 } = derive { p with webVitalsFCP := none } ∧
    derive { p with webVitalsTTFB := some 0 } = derive { p with webVitalsTTFB := none } ∧
    derive { p with webVitalsLCP := some 0 } = derive { p with webVitalsLCP := none } ∧
    fcpOf { p with webVitalsFCP := some 0 } =
      truthy ((p.paintEntries.find? fun e => e.name = "first-contentful-paint").map
        PaintEntry.startTime) ∧
    (derive { p with webVitalsTTFB := some 0 }).ttfb = none ∧
    finalLCP { p with webVitalsLCP := some 0 } = p.lcpEntries.getLast? := by
  refine ⟨?_, ?_, ?_, ?_, ?_, ?_⟩
  · exact derive_congr (by simp) (by simp [truthy_some_zero, truthy]) (by simp)
      (by simp) (by simp) (by simp) (by simp) (by simp)
  · exact derive_congr (by simp) (by simp) (by simp)
      (by simp [truthy_some_zero, truthy]) (by simp) (by simp) (by simp) (by simp)
  · exact derive_congr (by simp [truthy_some_zero, truthy]) (by simp) (by simp)
      (by simp) (by simp) (by simp) (by simp) (by simp)
  · simp [fcpOf, truthy_some_zero, Option.orElse]
  · simp [derive, truthy_some_zero, truthy]
  · simp only [finalLCP]
    rcases hlast : p.lcpEntries.getLast? with _ | c <;>
      simp [truthy_some_zero, hlast]

/-- C5: the stabilization loop exits early exactly when some poll `i ≤ 2`
yields a non-null reading that is repeated at polls `i+1` and `i+2` (so a
null-vs-null match never counts as stable); an all-null reading sequence
runs all 5 polls of the 15000ms ceiling (5 × 3000ms) and still returns,
so the session proceeds; and the constant sequence 1500, 1500, … exits
after poll 3 — the second consecutive equal reading — not after poll 2. -/
theorem stabilize_loop_spec :
    (∀ r : ℕ → Option ℚ, (stabilize r).2 = true ↔
      ∃ i, i ≤ 2 ∧ r i ≠ none ∧ r i = r (i + 1) ∧ r (i + 1) = r (i + 2)) ∧
    (∀ r : ℕ → Option ℚ, (∀ i, r i = none) → stabilize r = (5, false)) ∧
    numPolls * checkInterval = maxWaitTime ∧
    stabilize (fun _ => some 1500) = (3, true) := by
  have hlt : ¬ 0 + 1 ≥ 2 := by norm_num
  have hge : 1 + 1 ≥ 2 := by norm_num
  refine ⟨?_, ?_, by norm_num [numPolls, maxWaitTime, checkInterval], ?_⟩
  · intro r
    have h0 : ¬ (r 0 = none ∧ r 0 ≠ none) := fun h => h.2 h.1
    by_cases c1 : r 1 = r 0 ∧ r 1 ≠ none
    · by_cases c2 : r 2 = r 0 ∧ r 2 ≠ none
      · have hres : stabilize r = (3, true) := by
          show stabilizeGo r (4+1) 0 none 0 = (3, true)
          rw [stabilizeGo_succ, if_neg h0]
          show stabilizeGo r (3+1) 1 (r 0) 0 = (3, true)
          rw [stabilizeGo_succ, if_pos c1, if_neg hlt]
          show stabilizeGo r (2+1) 2 (r 0) 1 = (3, true)
          rw [stabilizeGo_succ, if_pos c2, if_pos hge]
        exact iff_of_true (by rw [hres])
          ⟨0, by norm_num, c1.1 ▸ c1.2, c1.1.symm, by rw [c1.1, c2.1]⟩
      · by_cases c3 : r 3 = r 2 ∧ r 3 ≠ none
        · by_cases c4 : r 4 = r 2 ∧ r 4 ≠ none
          · have hres : stabilize r = (5, true) := by
              show stabilizeGo r (4+1) 0 none 0 = (5, true)
              rw [stabilizeGo_succ, if_neg h0]
              show stabilizeGo r (3+1) 1 (r 0) 0 = (5, true)
              rw [stabilizeGo_succ, if_pos c1, if_neg hlt]
              show stabilizeGo r (2+1) 2 (r 0) 1 = (5, true)
              rw [stabilizeGo_succ, if_neg c2]
              show stabilizeGo r (1+1) 3 (r 2) 0 = (5, true)
              rw [stabilizeGo_succ, if_pos c3, if_neg hlt]
              show stabilizeGo r (0+1) 4 (r 2) 1 = (5, true)
              rw [stabilizeGo_succ, if_pos c4, if_pos hge]
            exact iff_of_true (by rw [hres])
              ⟨2, by norm_num, c3.1 ▸ c3.2, c3.1.symm, c3.1.trans c4.1.symm⟩
          · have hres : stabilize r = (5, false) := by
              show stabilizeGo r (4+1) 0 none 0 = (5, false)
              rw [stabilizeGo_succ, if_neg h0]
              show stabilizeGo r (3+1) 1 (r 0) 0 = (5, false)
              rw [stabilizeGo_succ, if_pos c1, if_neg hlt]
              show stabilizeGo r (2+1) 2 (r 0) 1 = (5, false)
              rw [stabilizeGo_succ, if_neg c2]
              show stabilizeGo r (1+1) 3 (r 2) 0 = (5, false)
              rw [stabilizeGo_succ, if_pos c3, if_neg hlt]
              show stabilizeGo r (0+1) 4 (r 2) 1 = (5, false)
              rw [stabilizeGo_succ, if_neg c4]
              rfl
            refine iff_of_false (by rw [hres]; simp) ?_
            rintro ⟨i, hi, hne, h01, h12⟩
            interval_cases i
            · exact c2 ⟨(h01.trans h12).symm, (h01.trans h12) ▸ hne⟩
            · exact c2 ⟨h01.symm.trans c1.1, h01 ▸ hne⟩
            · exact c4 ⟨(h01.trans h12).symm, (h01.trans h12) ▸ hne⟩
        · have hres : stabilize r = (5, false) := by
            show stabilizeGo r (4+1) 0 none 0 = (5, false)
            rw [stabilizeGo_succ, if_neg h0]
            show stabilizeGo r (3+1) 1 (r 0) 0 = (5, false)
            rw [stabilizeGo_succ, if_pos c1, if_neg hlt]
            show stabilizeGo r (2+1) 2 (r 0) 1 = (5, false)
            rw [stabilizeGo_succ, if_neg c2]
            show stabilizeGo r (1+1) 3 (r 2) 0 = (5, false)
            rw [stabilizeGo_succ, if_neg c3]
            show stabilizeGo r (0+1) 4 (r 3) 0 = (5, false)
            rw [stabilizeGo_succ]
            by_cases c4 : r 4 = r 3 ∧ r 4 ≠ none
            · rw [if_pos c4, if_neg hlt]
              rfl
            · rw [if_neg c4]
              rfl
          refine iff_of_false (by rw [hres]; simp) ?_
          rintro ⟨i, hi, hne, h01, h12⟩
          interval_cases i
          · exact c2 ⟨(h01.trans h12).symm, (h01.trans h12) ▸ hne⟩
          · exact c3 ⟨h12.symm, h12 ▸ h01 ▸ hne⟩
          · exact c3 ⟨h01.symm, h01 ▸ hne⟩
    · by_cases c2 : r 2 = r 1 ∧ r 2 ≠ none
      · by_cases c3 : r 3 = r 1 ∧ r 3 ≠ none
        · have hres : stabilize r = (4, true) := by
            show stabilizeGo r (4+1) 0 none 0 = (4, true)
            rw [stabilizeGo_succ, if_neg h0]
            show stabilizeGo r (3+1) 1 (r 0) 0 = (4, true)
            rw [stabilizeGo_succ, if_neg c1]
            show stabilizeGo r (2+1) 2 (r 1) 0 = (4, true)
            rw [stabilizeGo_succ, if_pos c2, if_neg hlt]
            show stabilizeGo r (1+1) 3 (r 1) 1 = (4, true)
            rw [stabilizeGo_succ, if_pos c3, if_pos hge]
          exact iff_of_true (by rw [hres])
            ⟨1, by norm_num, c2.1 ▸ c2.2, c2.1.symm, c2.1.trans c3.1.symm⟩
        · have hres : stabilize r = (5, false) := by
            show stabilizeGo r (4+1) 0 none 0 = (5, false)
            rw [stabilizeGo_succ, if_neg h0]
            show stabilizeGo r (3+1) 1 (r 0) 0 = (5, false)
            rw [stabilizeGo_succ, if_neg c1]
            show stabilizeGo r (2+1) 2 (r 1) 0 = (5, false)
            rw [stabilizeGo_succ, if_pos c2, if_neg hlt]
            show stabilizeGo r (1+1) 3 (r 1) 1 = (5, false)
            rw [stabilizeGo_succ, if_neg c3]
            show stabilizeGo r (0+1) 4 (r 3) 0 = (5, false)
            rw [stabilizeGo_succ]
            by_cases c4 : r 4 = r 3 ∧ r 4 ≠ none
            · rw [if_pos c4, if_neg hlt]
              rfl
            · rw [if_neg c4]
              rfl
          refine iff_of_false (by rw [hres]; simp) ?_
          rintro ⟨i, hi, hne, h01, h12⟩
          interval_cases i
          · exact c1 ⟨h01.symm, h01 ▸ hne⟩
          · exact c3 ⟨(h01.trans h12).symm, (h01.trans h12) ▸ hne⟩
          · exact c3 ⟨h01.symm.trans c2.1, h01 ▸ hne⟩
      · by_cases c3 : r 3 = r 2 ∧ r 3 ≠ none
        · by_cases c4 : r 4 = r 2 ∧ r 4 ≠ none
          · have hres : stabilize r = (5, true) := by
              show stabilizeGo r (4+1) 0 none 0 = (5, true)
              rw [stabilizeGo_succ, if_neg h0]
              show stabilizeGo r (3+1) 1 (r 0) 0 = (5, true)
              rw [stabilizeGo_succ, if_neg c1]
              show stabilizeGo r (2+1) 2 (r 1) 0 = (5, true)
              rw [stabilizeGo_succ, if_neg c2]
              show stabilizeGo r (1+1) 3 (r 2) 0 = (5, true)
              rw [stabilizeGo_succ, if_pos c3, if_neg hlt]
              show stabilizeGo r (0+1) 4 (r 2) 1 = (5, true)
              rw [stabilizeGo_succ, if_pos c4, if_pos hge]
            exact iff_of_true (by rw [hres])
              ⟨2, by norm_num, c3.1 ▸ c3.2, c3.1.symm, c3.1.trans c4.1.symm⟩
          · have hres : stabilize r = (5, false) := by
              show stabilizeGo r (4+1) 0 none 0 = (5, false)
              rw [stabilizeGo_succ, if_neg h0]
              show stabilizeGo r (3+1) 1 (r 0) 0 = (5, false)
              rw [stabilizeGo_succ, if_neg c1]
              show stabilizeGo r (2+1) 2 (r 1) 0 = (5, false)
              rw [stabilizeGo_succ, if_neg c2]
              show stabilizeGo r (1+1) 3 (r 2) 0 = (5, false)
              rw [stabilizeGo_succ, if_pos c3, if_neg hlt]
              show stabilizeGo r (0+1) 4 (r 2) 1 = (5, false)
              rw [stabilizeGo_succ, if_neg c4]
              rfl
            refine iff_of_false (by rw [hres]; simp) ?_
            rintro ⟨i, hi, hne, h01, h12⟩
            interval_cases i
            · exact c1 ⟨h01.symm, h01 ▸ hne⟩
            · exact c2 ⟨h01.symm, h01 ▸ hne⟩
            · exact c4 ⟨(h01.trans h12).symm, (h01.trans h12) ▸ hne⟩
        · have hres : stabilize r = (5, false) := by
            show stabilizeGo r (4+1) 0 none 0 = (5, false)
            rw [stabilizeGo_succ, if_neg h0]
            show stabilizeGo r (3+1) 1 (r 0) 0 = (5, false)
            rw [stabilizeGo_succ, if_neg c1]
            show stabilizeGo r (2+1) 2 (r 1) 0 = (5, false)
            rw [stabilizeGo_succ, if_neg c2]
            show stabilizeGo r (1+1) 3 (r 2) 0 = (5, false)
            rw [stabilizeGo_succ, if_neg c3]
            show stabilizeGo r (0+1) 4 (r 3) 0 = (5, false)
            rw [stabilizeGo_succ]
            by_cases c4 : r 4 = r 3 ∧ r 4 ≠ none
            · rw [if_pos c4, if_neg hlt]
              rfl
            · rw [if_neg c4]
              rfl
          refine iff_of_false (by rw [hres]; simp) ?_
          rintro ⟨i, hi, hne, h01, h12⟩
          interval_cases i
          · exact c1 ⟨h01.symm, h01 ▸ hne⟩
          · exact c2 ⟨h01.symm, h01 ▸ hne⟩
          · exact c3 ⟨h01.symm, h01 ▸ hne⟩
  · intro r hr
    show stabilizeGo r (4+1) 0 none 0 = (5, false)
    rw [stabilizeGo_succ, if_neg (fun h => h.2 (hr 0))]
    show stabilizeGo r (3+1) 1 (r 0) 0 = (5, false)
    rw [stabilizeGo_succ, if_neg (fun h => h.2 (hr 1))]
    show stabilizeGo r (2+1) 2 (r 1) 0 = (5, false)
    rw [stabilizeGo_succ, if_neg (fun h => h.2 (hr 2))]
    show stabilizeGo r (1+1) 3 (r 2) 0 = (5, false)
    rw [stabilizeGo_succ, if_neg (fun h => h.2 (hr 3))]
    show stabilizeGo r (0+1) 4 (r 3) 0 = (5, false)
    rw [stabilizeGo_succ, if_neg (fun h => h.2 (hr 4))]
    rfl
  · show stabilizeGo (fun _ => some 1500) (4+1) 0 none 0 = (3, true)
    rw [stabilizeGo_succ, if_neg (fun h => h.2 h.1)]
    show stabilizeGo (fun _ => some 1500) (3+1) 1 (some 1500) 0 = (3, true)
    rw [stabilizeGo_succ, if_pos ⟨rfl, Option.some_ne_none 1500⟩, if_neg hlt]
    show stabilizeGo (fun _ => some 1500) (2+1) 2 (some 1500) 1 = (3, true)
    rw [stabilizeGo_succ, if_pos ⟨rfl, Option.some_ne_none 1500⟩, if_pos hge]

/-- Witness for `stabilize_loop_spec`, applying the all-null clause at the
constant-null reading sequence. -/
theorem stabilize_loop_spec_witness :
    stabilize (fun _ => (none : Option ℚ)) = (5, false) :=
  stabilize_loop_spec.2.1 (fun _ => none) (fun _ => rfl)

end PagespeedLocal
